import Mathlib

/-!
# Authentication backend: signup, login, logout, session check

A shallow embedding of `src/server.js` (the four Express route handlers) and
`src/models/User.js` (the Mongoose schema of the `User` collection).

* JavaScript strings are lists of characters (`Str`): the model covers the
  strings of the Basic Multilingual Plane, where a character is one UTF-16 code
  unit and `length` counts characters.
* A field of a request body is `Option Str`: `none` when the JSON body does not
  carry the key, a string otherwise.  Bodies with a number, an object, an array
  or `null` in a field are outside the model.
* `Date.now()` is an explicit argument `now`, in milliseconds.
* The store is the list of persisted `User` documents, in insertion order.
* What the handlers depend on and the repository does not define is a field of
  `Env`: bcrypt's `hash` and `compare`, the keyed signature under a JSON web
  token, the value of `process.env.JWT_SECRET`, `String.prototype.toLowerCase`,
  and whether the database driver rejects a read or a write.  Every call that
  can throw in JavaScript returns `Except String _` here, the string being the
  error text.
* Mongoose (setters, validators, `findOne`, `save`) and jsonwebtoken (`sign`,
  `verify`) are libraries, not files of the repository; the definitions that
  stand for them say so.  The schema options they interpret and the arguments
  they are called with are those of the source.
-/

namespace AuthBackend

/-- A JavaScript string. -/
abbrev Str := List Char

/-- A string literal as a `Str`. -/
def str (s : String) : Str := s.toList

/-! ## JavaScript string primitives -/

/-- ECMAScript WhiteSpace and LineTerminator code points: the characters that
`String.prototype.trim` strips and that `\s` matches (so `\S` is the rest). -/
def isWhiteSpace (c : Char) : Bool :=
  let n := c.toNat
  n == 9 || n == 10 || n == 11 || n == 12 || n == 13 || n == 32 || n == 160 ||
  n == 5760 || (8192 ≤ n && n ≤ 8202) || n == 8232 || n == 8233 || n == 8239 ||
  n == 8287 || n == 12288 || n == 65279

/-- JavaScript `String.prototype.trim`: strip white space from both ends. -/
def trim (s : Str) : Str :=
  ((s.dropWhile isWhiteSpace).reverse.dropWhile isWhiteSpace).reverse

/-- The regular expression `/^\S+@\S+\.\S+$/` of `userSchema.email.match`, as
`RegExp.prototype.test`: the whole string is free of white space and splits as
`a ++ "@" ++ b ++ "." ++ c` with `a`, `b`, `c` non-empty, that is, some `@` at an
index `i ≥ 1` and some `.` at an index `j ≥ i + 2` that is not the last index. -/
def emailPattern (s : Str) : Bool :=
  s.all (fun c => !isWhiteSpace c) &&
  (List.range s.length).any (fun i =>
    (List.range s.length).any (fun j =>
      decide (0 < i) && decide (i + 1 < j) && decide (j + 1 < s.length) &&
      s.get? i == some '@' && s.get? j == some '.'))

/-! ## Data model -/

/-- A persisted document of the `User` collection (`src/models/User.js`). -/
structure User where
  id : Nat
  name : Str
  email : Str
  password : Str
  createdAt : Nat
  updatedAt : Nat
  lastLogin : Option Nat
  deriving DecidableEq, Repr

/-- The document `new User(...)` builds in memory, before validation: the
schema setters have run, the required fields may still be missing. -/
structure Doc where
  id : Nat
  name : Option Str
  email : Option Str
  password : Option Str
  createdAt : Nat
  deriving DecidableEq, Repr

/-- The store: the documents of the collection in insertion order, and the next
object id the driver hands out. -/
structure Store where
  users : List User
  nextId : Nat
  deriving DecidableEq, Repr

/-- Payload of a session token: what `jwt.sign` embeds and `jwt.verify` returns.
`iat` and `exp` are in seconds. -/
structure JwtPayload where
  userId : Nat
  email : Str
  iat : Nat
  exp : Nat
  deriving DecidableEq, Repr

/-- A well-formed JSON web token: payload and signature. -/
structure Jwt where
  payload : JwtPayload
  signature : Str
  deriving DecidableEq, Repr

/-- The value of a cookie: either a string that parses as a JSON web token, or
any other text (`text []` is the empty string). -/
inductive CookieValue where
  | text (s : Str)
  | jwt (t : Jwt)
  deriving DecidableEq, Repr

/-- A `Set-Cookie` written by `res.cookie(name, value, options)`. -/
structure Cookie where
  name : String
  value : CookieValue
  httpOnly : Bool
  maxAge : Nat
  deriving DecidableEq, Repr

/-- The public user projection returned to the client. -/
structure PublicUser where
  id : Nat
  name : Str
  email : Str
  deriving DecidableEq, Repr

/-- JSON bodies the handlers send. -/
inductive Body where
  | message (message : String)
  | messageUser (message : String) (user : PublicUser)
  | authenticated (flag : Bool) (user : Option JwtPayload)
  deriving DecidableEq, Repr

/-- An HTTP response: status, JSON body, and the `auth_token` cookie it sets,
if any. -/
structure Response where
  status : Nat
  body : Body
  cookie : Option Cookie
  deriving DecidableEq, Repr

/-- The libraries and the configuration the handlers run against. -/
structure Env where
  /-- JavaScript `String.prototype.toLowerCase`. -/
  toLowerCase : Str → Str
  /-- The call `bcrypt.hash(password, rounds)`. -/
  hash : Option Str → Nat → Except String Str
  /-- The call `bcrypt.compare(password, hashed)`. -/
  compare : Option Str → Str → Except String Bool
  /-- The keyed signature of a token payload (HMAC under the secret). -/
  hmac : Str → JwtPayload → Str
  /-- The value of `process.env.JWT_SECRET`. -/
  JWT_SECRET : Option Str
  /-- When `some e`, the driver rejects `User.findOne` with `e`. -/
  findOneFault : Option String
  /-- When `some e`, the driver rejects the insert of `user.save()` with `e`. -/
  saveFault : Option String

/-- The calls a handler makes, in order. -/
inductive Effect where
  | findOne (email : Option Str)
  | bcryptHash (password : Option Str) (rounds : Nat)
  | bcryptCompare (password : Option Str) (hashed : Str)
  | save (doc : Doc)
  | jwtSign (userId : Nat) (email : Str)
  | jwtVerify (token : CookieValue)
  | consoleError (label : String) (error : String)
  deriving DecidableEq, Repr

/-! ## The schema of `src/models/User.js` -/

/-- The options of a `String` path of a Mongoose schema. -/
structure StringPath where
  required : Bool
  trim : Bool
  lowercase : Bool
  minlength : Option Nat
  maxlength : Option Nat
  matchRe : Option (Str → Bool)

/-- Schema path `name`: required, trim, minlength 2, maxlength 50. -/
def userSchema.name : StringPath :=
  { required := true, trim := true, lowercase := false,
    minlength := some 2, maxlength := some 50, matchRe := none }

/-- Schema path `email`: required, trim, lowercase, match `/^\S+@\S+\.\S+$/`. -/
def userSchema.email : StringPath :=
  { required := true, trim := true, lowercase := true,
    minlength := none, maxlength := none, matchRe := some emailPattern }

/-- Schema path `password`: required, minlength 8. -/
def userSchema.password : StringPath :=
  { required := true, trim := false, lowercase := false,
    minlength := some 8, maxlength := none, matchRe := none }

/-- Whether the index declared by `userSchema.index(...)` on `email` is a unique
index.  The source declares `userSchema.index({ email: 1 })`, with no `unique`
option, and no path carries `unique: true`. -/
def userSchema.emailIndexUnique : Bool := false

/-- Modelled from the spec: Mongoose, which runs the schema, is not under src/.
The spec has the email stored trimmed and lowercased and looked up by its
lowercased, trimmed form.  These are the setters of a `String` path, run on a
value assigned to the path and on a value a query filters the path by, in the
order the schema lists the options: the `trim` setter is
`v => v ? v.trim() : v`, the `lowercase` setter `v => v ? v.toLowerCase() : v`
(the empty string is falsy and passes through). -/
def applySetters (env : Env) (p : StringPath) (v : Option Str) : Option Str :=
  match v with
  | none => none
  | some s =>
    let s1 := if p.trim && !s.isEmpty then trim s else s
    let s2 := if p.lowercase && !s1.isEmpty then env.toLowerCase s1 else s1
    some s2

/-- Modelled from the spec: Mongoose, which runs the schema, is not under src/.
The spec has the fields required, the name of 2 to 50 characters after
trimming, the email matching a basic pattern.  These are the validators of a
`String` path, each applied to the value the path holds: `required` rejects a missing
value and the empty string; `minlength`, `maxlength` and `match` accept a
missing value (and `match` the empty string) and otherwise test the value. -/
def validatePath (p : StringPath) (v : Option Str) : Bool :=
  match v with
  | none => !p.required
  | some s =>
    (!p.required || !s.isEmpty) &&
    (match p.minlength with
     | none => true
     | some n => decide (n ≤ s.length)) &&
    (match p.maxlength with
     | none => true
     | some n => decide (s.length ≤ n)) &&
    (match p.matchRe with
     | none => true
     | some re => s.isEmpty || re s)

/-- The value `new User(...)` holds for each field: the schema setters applied
to what the constructor was given. -/
def newUser (env : Env) (st : Store) (name email password : Option Str)
    (createdAt : Nat) : Doc :=
  { id := st.nextId,
    name := applySetters env userSchema.name name,
    email := applySetters env userSchema.email email,
    password := applySetters env userSchema.password password,
    createdAt := createdAt }

/-- Document validation, run by `save()` before the insert: every path
validator of the schema. -/
def validate (doc : Doc) : Bool :=
  validatePath userSchema.name doc.name &&
  validatePath userSchema.email doc.email &&
  validatePath userSchema.password doc.password

/-! ## Store operations -/

/-- Modelled from the spec: Mongoose's `Model.findOne` is not under src/; the
spec has the user looked up by the lowercased, trimmed email.
The call `User.findOne({ email })`: the filter value is cast through the
setters of the `email` path, and the first document whose `email` is that value
is returned; a missing filter value matches documents without an email, of
which the collection has none. -/
def findOne (env : Env) (st : Store) (email : Option Str) :
    Except String (Option User) :=
  match env.findOneFault with
  | some e => .error e
  | none =>
    match applySetters env userSchema.email email with
    | none => .ok none
    | some key => .ok (st.users.find? (fun u => decide (u.email = key)))

/-- Modelled from the spec: Mongoose's `Document.save` is not under src/; the
spec has the field constraints enforced by the store layer's validation.
The call `user.save()`: validate, then insert.  A document that fails
validation, or whose insert the driver rejects, throws and leaves the store as
it was.  A unique index would reject an insert whose email is already stored;
the schema declares none. -/
def save (env : Env) (st : Store) (doc : Doc) (now : Nat) :
    Except String (User × Store) :=
  match doc.name, doc.email, doc.password with
  | some name, some email, some password =>
    if validate doc then
      match env.saveFault with
      | some e => .error e
      | none =>
        if userSchema.emailIndexUnique && st.users.any (fun u => decide (u.email = email)) then
          .error "E11000 duplicate key error"
        else
          let user : User :=
            { id := doc.id, name := name, email := email, password := password,
              createdAt := doc.createdAt, updatedAt := now, lastLogin := none }
          .ok (user, { users := st.users ++ [user], nextId := st.nextId + 1 })
    else .error "User validation failed"
  | _, _, _ => .error "User validation failed"

/-! ## Session tokens -/

/-- The option `expiresIn: '24h'` of both `jwt.sign` calls, in seconds. -/
def expiresIn : Nat := 24 * 60 * 60

/-- The option `maxAge: 24 * 60 * 60 * 1000` of the authentication cookie, in
milliseconds. -/
def cookieMaxAge : Nat := 24 * 60 * 60 * 1000

/-- Modelled from the spec: jsonwebtoken's `sign` is not under src/; the spec
has a signed claim of user id, email and an expiry 24 hours from issuance.
The call `jwt.sign({ userId, email }, process.env.JWT_SECRET, { expiresIn: '24h' })`
at time `now`: `iat` is the clock in whole seconds, `exp` is `iat` plus the
time span, and the token carries the signature of the payload under the
secret.  A missing or empty secret throws. -/
def sign (env : Env) (userId : Nat) (email : Str) (now : Nat) : Except String Jwt :=
  match env.JWT_SECRET with
  | none => .error "secretOrPrivateKey must have a value"
  | some [] => .error "secretOrPrivateKey must have a value"
  | some (c :: cs) =>
    let payload : JwtPayload :=
      { userId := userId, email := email, iat := now / 1000, exp := now / 1000 + expiresIn }
    .ok { payload := payload, signature := env.hmac (c :: cs) payload }

/-- Modelled from the spec: jsonwebtoken's `verify` is not under src/; the
spec has signature and expiry verified, and a failure on a bad signature, an
expired or a malformed token.
The call `jwt.verify(token, process.env.JWT_SECRET)` at time `now`: throws
on an empty or malformed token, a missing secret, a signature that is not the
one of the payload under the secret, and a clock (in whole seconds) at or past
`exp`; returns the payload otherwise. -/
def verify (env : Env) (token : CookieValue) (now : Nat) : Except String JwtPayload :=
  match token with
  | .text [] => .error "jwt must be provided"
  | .text (_ :: _) => .error "jwt malformed"
  | .jwt t =>
    match env.JWT_SECRET with
    | none => .error "secret or public key must be provided"
    | some [] => .error "secret or public key must be provided"
    | some (c :: cs) =>
      if t.signature = env.hmac (c :: cs) t.payload then
        if t.payload.exp ≤ now / 1000 then .error "jwt expired"
        else .ok t.payload
      else .error "invalid signature"

/-! ## The route handlers of `src/server.js` -/

/-- JSON body of `POST /api/signup`. -/
structure SignupBody where
  name : Option Str
  email : Option Str
  password : Option Str
  deriving DecidableEq, Repr

/-- JSON body of `POST /api/login`. -/
structure LoginBody where
  email : Option Str
  password : Option Str
  deriving DecidableEq, Repr

/-- State of a handler when its `try` block ends: the response the block sent,
or the error it threw; the store; the calls made so far. -/
structure Run where
  result : Except String Response
  store : Store
  trace : List Effect

/-- What a handler leaves behind: the response, the store, the calls made. -/
structure Outcome where
  response : Response
  store : Store
  trace : List Effect
  deriving DecidableEq, Repr

/-- The cookie `res.cookie('auth_token', token, { httpOnly: true, maxAge: 24 * 60 * 60 * 1000 })`. -/
def authCookie (token : Jwt) : Cookie :=
  { name := "auth_token", value := .jwt token, httpOnly := true, maxAge := cookieMaxAge }

/-- The projection `{ id: user._id, name: user.name, email: user.email }`. -/
def publicUser (user : User) : PublicUser :=
  { id := user.id, name := user.name, email := user.email }

/-- The `try` block of `app.post('/api/signup', ...)`. -/
def signupTry (env : Env) (st : Store) (body : SignupBody) (now : Nat) : Run :=
  match findOne env st body.email with
  | .error e => ⟨.error e, st, [.findOne body.email]⟩
  | .ok (some _) =>
    ⟨.ok { status := 400,
           body := .message "An account with this email already exists",
           cookie := none },
     st, [.findOne body.email]⟩
  | .ok none =>
    match env.hash body.password 12 with
    | .error e => ⟨.error e, st, [.findOne body.email, .bcryptHash body.password 12]⟩
    | .ok hashedPassword =>
      let doc := newUser env st body.name body.email (some hashedPassword) now
      match save env st doc now with
      | .error e =>
        ⟨.error e, st, [.findOne body.email, .bcryptHash body.password 12, .save doc]⟩
      | .ok (user, st1) =>
        match sign env user.id user.email now with
        | .error e =>
          ⟨.error e, st1,
           [.findOne body.email, .bcryptHash body.password 12, .save doc,
            .jwtSign user.id user.email]⟩
        | .ok token =>
          ⟨.ok { status := 201,
                 body := .messageUser "Account created successfully!" (publicUser user),
                 cookie := some (authCookie token) },
           st1,
           [.findOne body.email, .bcryptHash body.password 12, .save doc,
            .jwtSign user.id user.email]⟩

/-- Handler `app.post('/api/signup', ...)`: the `try` block, and the `catch`
that logs the error and answers 500 with a fixed message. -/
def signup (env : Env) (st : Store) (body : SignupBody) (now : Nat) : Outcome :=
  match signupTry env st body now with
  | ⟨.ok res, st1, tr⟩ => ⟨res, st1, tr⟩
  | ⟨.error e, st1, tr⟩ =>
    ⟨{ status := 500,
       body := .message "Server error during registration. Please try again later.",
       cookie := none },
     st1, tr ++ [.consoleError "Signup error:" e]⟩

/-- The `try` block of `app.post('/api/login', ...)`. -/
def loginTry (env : Env) (st : Store) (body : LoginBody) (now : Nat) : Run :=
  match findOne env st body.email with
  | .error e => ⟨.error e, st, [.findOne body.email]⟩
  | .ok none =>
    ⟨.ok { status := 401, body := .message "Invalid email or password", cookie := none },
     st, [.findOne body.email]⟩
  | .ok (some user) =>
    match env.compare body.password user.password with
    | .error e =>
      ⟨.error e, st, [.findOne body.email, .bcryptCompare body.password user.password]⟩
    | .ok false =>
      ⟨.ok { status := 401, body := .message "Invalid email or password", cookie := none },
       st, [.findOne body.email, .bcryptCompare body.password user.password]⟩
    | .ok true =>
      match sign env user.id user.email now with
      | .error e =>
        ⟨.error e, st,
         [.findOne body.email, .bcryptCompare body.password user.password,
          .jwtSign user.id user.email]⟩
      | .ok token =>
        ⟨.ok { status := 200,
               body := .messageUser "Login successful" (publicUser user),
               cookie := some (authCookie token) },
         st,
         [.findOne body.email, .bcryptCompare body.password user.password,
          .jwtSign user.id user.email]⟩

/-- Handler `app.post('/api/login', ...)`: the `try` block, and the `catch`
that logs the error and answers 500 with a fixed message. -/
def login (env : Env) (st : Store) (body : LoginBody) (now : Nat) : Outcome :=
  match loginTry env st body now with
  | ⟨.ok res, st1, tr⟩ => ⟨res, st1, tr⟩
  | ⟨.error e, st1, tr⟩ =>
    ⟨{ status := 500,
       body := .message "Server error. Please try again later.",
       cookie := none },
     st1, tr ++ [.consoleError "Login error:" e]⟩

/-- Handler `app.post('/api/logout', ...)`.  It has no `try`, reads neither the
request cookie (kept as an argument to say so) nor the store, and makes no
library call. -/
def logout (st : Store) (_cookie : Option CookieValue) : Outcome :=
  ⟨{ status := 200,
     body := .message "Logged out successfully",
     cookie := some { name := "auth_token", value := .text [], httpOnly := true, maxAge := 0 } },
   st, []⟩

/-- Handler `app.get('/api/auth/check', ...)`.  `cookie` is
`req.cookies.auth_token`; `!token` holds of a missing cookie and of the empty
string.  The `try` wraps `jwt.verify` only and its `catch` answers 401. -/
def authCheck (env : Env) (st : Store) (cookie : Option CookieValue) (now : Nat) : Outcome :=
  match cookie with
  | none => ⟨{ status := 401, body := .authenticated false none, cookie := none }, st, []⟩
  | some (.text []) =>
    ⟨{ status := 401, body := .authenticated false none, cookie := none }, st, []⟩
  | some token =>
    match verify env token now with
    | .ok decoded =>
      ⟨{ status := 200, body := .authenticated true (some decoded), cookie := none },
       st, [.jwtVerify token]⟩
    | .error _ =>
      ⟨{ status := 401, body := .authenticated false none, cookie := none },
       st, [.jwtVerify token]⟩

/-! ## Sequences of requests -/

/-- A request to one of the four routes, with the time it is handled at. -/
inductive Request where
  | signup (body : SignupBody) (now : Nat)
  | login (body : LoginBody) (now : Nat)
  | logout (cookie : Option CookieValue)
  | authCheck (cookie : Option CookieValue) (now : Nat)
  deriving DecidableEq, Repr

/-- Handle one request. -/
def handle (env : Env) (st : Store) : Request → Outcome
  | .signup body now => signup env st body now
  | .login body now => login env st body now
  | .logout cookie => logout st cookie
  | .authCheck cookie now => authCheck env st cookie now

/-- Handle requests one after another; the store after the last one. -/
def runAll (env : Env) (st : Store) : List Request → Store
  | [] => st
  | r :: rs => runAll env (handle env st r).store rs

/-! ## A concrete environment, for evaluation -/

/-- ASCII case mapping of `toLowerCase`: `A`-`Z` to `a`-`z`, every other
character unchanged. -/
def asciiLower (s : Str) : Str :=
  s.map (fun c => if 65 ≤ c.toNat ∧ c.toNat ≤ 90 then Char.ofNat (c.toNat + 32) else c)

/-- A stand-in for bcrypt with the shape of its output: a 60-character string
that starts with the version and the cost, here followed by the password
reversed and padding.  A missing password throws. -/
def demoHash (password : Option Str) (rounds : Nat) : Except String Str :=
  match password with
  | none => .error "Illegal arguments: undefined, number"
  | some p =>
    let body := str "$2a$" ++ (Nat.repr rounds).toList ++ str "$" ++ p.reverse
    .ok (body ++ List.replicate (60 - body.length) '.')

/-- The comparison that goes with `demoHash`. -/
def demoCompare (password : Option Str) (hashed : Str) : Except String Bool :=
  match password with
  | none => .error "Illegal arguments: undefined, string"
  | some p =>
    match demoHash (some p) 12 with
    | .ok h => .ok (decide (h = hashed))
    | .error e => .error e

/-- A stand-in for the signature: the secret followed by the payload fields. -/
def demoHmac (secret : Str) (p : JwtPayload) : Str :=
  secret ++ (Nat.repr p.userId).toList ++ p.email ++ (Nat.repr p.iat).toList ++
    (Nat.repr p.exp).toList

/-- An environment in working order: the secret is set, the driver is up. -/
def demoEnv : Env :=
  { toLowerCase := asciiLower, hash := demoHash, compare := demoCompare,
    hmac := demoHmac, JWT_SECRET := some (str "secret"),
    findOneFault := none, saveFault := none }

/-- The empty store. -/
def emptyStore : Store := { users := [], nextId := 1 }

/-! ## Concrete inputs -/

/-- The signup body of the scenario of the specification. -/
def adaSignup : SignupBody :=
  { name := some (str "Ada Lovelace"), email := some (str "Ada@Example.com "),
    password := some (str "12345678") }

/-- The document the scenario stores in the empty store at time 1000. -/
def adaUser : User :=
  { id := 1, name := str "Ada Lovelace", email := str "ada@example.com",
    password := str "$2a$12$87654321" ++ List.replicate 45 '.',
    createdAt := 1000, updatedAt := 1000, lastLogin := none }

/-- The store that holds the scenario's document only. -/
def adaStore : Store := { users := [adaUser], nextId := 2 }

/-- A server started without `JWT_SECRET`. -/
def noSecretEnv : Env := { demoEnv with JWT_SECRET := none }

/-- A server whose database driver rejects every read. -/
def dbDownEnv : Env := { demoEnv with findOneFault := some "connect ECONNREFUSED" }

/-- The token `demoEnv` signs for the scenario's document at time 1000. -/
def adaToken : Jwt :=
  { payload := { userId := 1, email := str "ada@example.com", iat := 1, exp := 86401 },
    signature := demoHmac (str "secret")
      { userId := 1, email := str "ada@example.com", iat := 1, exp := 86401 } }

/-- No two documents of the store share an email, the emails compared after
trimming and lowercasing. -/
def EmailsUnique (env : Env) (st : Store) : Prop :=
  st.users.Pairwise
    (fun u v => env.toLowerCase (trim u.email) ≠ env.toLowerCase (trim v.email))

/-- Every stored email is in trimmed, lowercased form. -/
def EmailsNormalised (env : Env) (st : Store) : Prop :=
  ∀ u ∈ st.users, env.toLowerCase (trim u.email) = u.email

/-- A store with one document whose email was not written through the schema
setters: it is not in lowercased form. -/
def legacyStore : Store :=
  { users := [{ id := 1, name := str "Ada Lovelace", email := str "Ada@Example.com",
                password := str "$2a$12$87654321" ++ List.replicate 45 '.',
                createdAt := 1000, updatedAt := 1000, lastLogin := none }],
    nextId := 2 }

/-- A second document with the email of the scenario's document. -/
def adaAgain : Doc :=
  { id := 2, name := some (str "Ada Again"), email := some (str "ada@example.com"),
    password := some (str "$2a$12$hgfedcba" ++ List.replicate 45 '.'), createdAt := 3000 }

/-- The document of `legacyStore`. -/
def legacyUser : User :=
  { id := 1, name := str "Ada Lovelace", email := str "Ada@Example.com",
    password := str "$2a$12$87654321" ++ List.replicate 45 '.',
    createdAt := 1000, updatedAt := 1000, lastLogin := none }

/-- A second user with the email of the scenario's document and the password
`abcdefgh`. -/
def adaTwin : User :=
  { id := 2, name := str "Ada Twin", email := str "ada@example.com",
    password := str "$2a$12$hgfedcba" ++ List.replicate 45 '.',
    createdAt := 2000, updatedAt := 2000, lastLogin := none }

/-- A store in which two documents share an email, as two signups handled at
the same time leave it: both lookups run before either insert, and the index
on `email` rejects nothing. -/
def twinStore : Store := { users := [adaUser, adaTwin], nextId := 3 }

/-! # Lemmas -/

/-! ## Session check -/

theorem authCheck_none (env : Env) (st : Store) (now : Nat) :
    authCheck env st none now =
      ⟨{ status := 401, body := .authenticated false none, cookie := none }, st, []⟩ := rfl

theorem authCheck_empty (env : Env) (st : Store) (now : Nat) :
    authCheck env st (some (.text [])) now =
      ⟨{ status := 401, body := .authenticated false none, cookie := none }, st, []⟩ := rfl

theorem verify_empty (env : Env) (now : Nat) :
    verify env (.text []) now = .error "jwt must be provided" := rfl

/-- The response of the session check is decided by `verify` alone. -/
theorem authCheck_response (env : Env) (st : Store) (token : CookieValue) (now : Nat) :
    (authCheck env st (some token) now).response =
      match verify env token now with
      | .ok decoded => { status := 200, body := .authenticated true (some decoded), cookie := none }
      | .error _ => { status := 401, body := .authenticated false none, cookie := none } := by
  cases token with
  | text s =>
    cases s with
    | nil => rfl
    | cons c cs => rfl
  | jwt t =>
    simp only [authCheck]
    cases verify env (.jwt t) now <;> rfl

/-! ## Login -/

theorem login_no_user (env : Env) (st : Store) (body : LoginBody) (now : Nat)
    (h : findOne env st body.email = .ok none) :
    login env st body now =
      ⟨{ status := 401, body := .message "Invalid email or password", cookie := none },
       st, [.findOne body.email]⟩ := by
  simp only [login, loginTry, h]

theorem login_wrong_password (env : Env) (st : Store) (body : LoginBody) (now : Nat)
    (user : User) (h : findOne env st body.email = .ok (some user))
    (hc : env.compare body.password user.password = .ok false) :
    login env st body now =
      ⟨{ status := 401, body := .message "Invalid email or password", cookie := none },
       st, [.findOne body.email, .bcryptCompare body.password user.password]⟩ := by
  simp only [login, loginTry, h, hc]

theorem login_ok (env : Env) (st : Store) (body : LoginBody) (now : Nat)
    (user : User) (token : Jwt) (h : findOne env st body.email = .ok (some user))
    (hc : env.compare body.password user.password = .ok true)
    (hs : sign env user.id user.email now = .ok token) :
    login env st body now =
      ⟨{ status := 200, body := .messageUser "Login successful" (publicUser user),
         cookie := some (authCookie token) },
       st, [.findOne body.email, .bcryptCompare body.password user.password,
            .jwtSign user.id user.email]⟩ := by
  simp only [login, loginTry, h, hc, hs]

theorem login_store (env : Env) (st : Store) (body : LoginBody) (now : Nat) :
    (login env st body now).store = st := by
  cases hf : findOne env st body.email with
  | error e => simp only [login, loginTry, hf]
  | ok found =>
    cases found with
    | none => simp only [login, loginTry, hf]
    | some user =>
      cases hc : env.compare body.password user.password with
      | error e => simp only [login, loginTry, hf, hc]
      | ok b =>
        cases b with
        | false => simp only [login, loginTry, hf, hc]
        | true =>
          cases hs : sign env user.id user.email now with
          | error e => simp only [login, loginTry, hf, hc, hs]
          | ok token => simp only [login, loginTry, hf, hc, hs]

theorem login_cookie (env : Env) (st : Store) (body : LoginBody) (now : Nat) (ck : Cookie)
    (h : (login env st body now).response.cookie = some ck) :
    ∃ userId email token, sign env userId email now = .ok token ∧ ck = authCookie token := by
  unfold login loginTry at h
  cases hf : findOne env st body.email with
  | error e => simp [hf] at h
  | ok found =>
    cases found with
    | none => simp [hf] at h
    | some user =>
      cases hc : env.compare body.password user.password with
      | error e => simp [hf, hc] at h
      | ok b =>
        cases b with
        | false => simp [hf, hc] at h
        | true =>
          cases hs : sign env user.id user.email now with
          | error e => simp [hf, hc, hs] at h
          | ok token =>
            simp [hf, hc, hs] at h
            exact ⟨user.id, user.email, token, hs, h.symm⟩

/-! ## Schema setters and validation -/

/-- An email that passes validation after the setters is non-blank, and the
setters turned it into its trimmed, lowercased form. -/
theorem email_setters_of_valid (env : Env) (e : Str)
    (h : validatePath userSchema.email (applySetters env userSchema.email (some e)) = true) :
    applySetters env userSchema.email (some e) = some (env.toLowerCase (trim e)) ∧
      env.toLowerCase (trim e) ≠ [] := by
  by_cases he : e = []
  · subst he
    simp [applySetters, validatePath, userSchema.email] at h
  · by_cases ht : trim e = []
    · simp [applySetters, validatePath, userSchema.email, he, ht] at h
    · by_cases hl : env.toLowerCase (trim e) = []
      · simp [applySetters, validatePath, userSchema.email, he, ht, hl] at h
      · exact ⟨by simp [applySetters, userSchema.email, he, ht], hl⟩

/-- The password path has no setter. -/
theorem password_setters (env : Env) (v : Option Str) :
    applySetters env userSchema.password v = v := by
  cases v <;> simp [applySetters, userSchema.password]

/-- A document that passes validation is inserted when the driver is up. -/
theorem save_of_validate (env : Env) (st : Store) (doc : Doc) (now : Nat)
    (hv : validate doc = true) (hs : env.saveFault = none) :
    ∃ name email password,
      doc.name = some name ∧ doc.email = some email ∧ doc.password = some password ∧
      save env st doc now =
        .ok (⟨doc.id, name, email, password, doc.createdAt, now, none⟩,
             ⟨st.users ++ [⟨doc.id, name, email, password, doc.createdAt, now, none⟩],
              st.nextId + 1⟩) := by
  rcases doc with ⟨id, name, email, password, createdAt⟩
  cases name with
  | none => simp [validate, validatePath, userSchema.name] at hv
  | some name =>
    cases email with
    | none => simp [validate, validatePath, userSchema.email] at hv
    | some email =>
      cases password with
      | none => simp [validate, validatePath, userSchema.password] at hv
      | some password =>
        refine ⟨name, email, password, rfl, rfl, rfl, ?_⟩
        simp only [save, hv, hs, userSchema.emailIndexUnique, Bool.false_and, if_true]
        rfl

/-- The store after `save`: unchanged on an error, one document more otherwise,
whose fields are the document's. -/
theorem save_ok_inv (env : Env) (st : Store) (doc : Doc) (now : Nat) (user : User)
    (st1 : Store) (h : save env st doc now = .ok (user, st1)) :
    validate doc = true ∧ doc.email = some user.email ∧ doc.password = some user.password ∧
      doc.name = some user.name ∧ user.id = doc.id ∧
      st1 = ⟨st.users ++ [user], st.nextId + 1⟩ := by
  rcases doc with ⟨id, name, email, password, createdAt⟩
  unfold save at h
  split at h
  · rename_i n e p hn he hp
    simp only at hn he hp
    subst hn he hp
    split at h
    · rename_i hv
      split at h
      · cases h
      · simp only [userSchema.emailIndexUnique, Bool.false_and] at h
        simp only [Bool.false_eq_true, if_false, Except.ok.injEq, Prod.mk.injEq] at h
        obtain ⟨h1, h2⟩ := h
        subst h1
        exact ⟨hv, rfl, rfl, rfl, rfl, h2.symm⟩
    · cases h
  · cases h

/-! ## Signup -/

theorem signup_duplicate (env : Env) (st : Store) (body : SignupBody) (now : Nat)
    (user : User) (h : findOne env st body.email = .ok (some user)) :
    signup env st body now =
      ⟨{ status := 400, body := .message "An account with this email already exists",
         cookie := none },
       st, [.findOne body.email]⟩ := by
  simp only [signup, signupTry, h]

theorem signup_created (env : Env) (st st1 : Store) (body : SignupBody) (now : Nat)
    (hashed : Str) (user : User) (token : Jwt)
    (hf : findOne env st body.email = .ok none)
    (hh : env.hash body.password 12 = .ok hashed)
    (hsave : save env st (newUser env st body.name body.email (some hashed) now) now =
      .ok (user, st1))
    (hs : sign env user.id user.email now = .ok token) :
    signup env st body now =
      ⟨{ status := 201,
         body := .messageUser "Account created successfully!" (publicUser user),
         cookie := some (authCookie token) },
       st1,
       [.findOne body.email, .bcryptHash body.password 12,
        .save (newUser env st body.name body.email (some hashed) now),
        .jwtSign user.id user.email]⟩ := by
  simp only [signup, signupTry, hf, hh, hsave, hs]

/-- The store after a signup: as before, or one document more, which is the
one `save` was given and which no stored document shared its email with. -/
theorem signup_store (env : Env) (st : Store) (body : SignupBody) (now : Nat) :
    (signup env st body now).store = st ∨
      ∃ hashed user,
        findOne env st body.email = .ok none ∧
        env.hash body.password 12 = .ok hashed ∧
        save env st (newUser env st body.name body.email (some hashed) now) now =
          .ok (user, (signup env st body now).store) := by
  cases hf : findOne env st body.email with
  | error e => left; simp only [signup, signupTry, hf]
  | ok found =>
    cases found with
    | some user => left; simp only [signup, signupTry, hf]
    | none =>
      cases hh : env.hash body.password 12 with
      | error e => left; simp only [signup, signupTry, hf, hh]
      | ok hashed =>
        cases hsave : save env st (newUser env st body.name body.email (some hashed) now) now with
        | error e => left; simp only [signup, signupTry, hf, hh, hsave]
        | ok res =>
          obtain ⟨user, st1⟩ := res
          right
          refine ⟨hashed, user, rfl, rfl, ?_⟩
          cases hs : sign env user.id user.email now with
          | error e => simp only [signup, signupTry, hf, hh, hsave, hs]
          | ok token => simp only [signup, signupTry, hf, hh, hsave, hs]

theorem signup_cookie (env : Env) (st : Store) (body : SignupBody) (now : Nat) (ck : Cookie)
    (h : (signup env st body now).response.cookie = some ck) :
    ∃ userId email token, sign env userId email now = .ok token ∧ ck = authCookie token := by
  cases hf : findOne env st body.email with
  | error e => simp [signup, signupTry, hf] at h
  | ok found =>
    cases found with
    | some user => simp [signup, signupTry, hf] at h
    | none =>
      cases hh : env.hash body.password 12 with
      | error e => simp [signup, signupTry, hf, hh] at h
      | ok hashed =>
        cases hsave : save env st (newUser env st body.name body.email (some hashed) now) now with
        | error e => simp [signup, signupTry, hf, hh, hsave] at h
        | ok res =>
          obtain ⟨user, st1⟩ := res
          cases hs : sign env user.id user.email now with
          | error e => simp [signup, signupTry, hf, hh, hsave, hs] at h
          | ok token =>
            simp [signup, signupTry, hf, hh, hsave, hs] at h
            exact ⟨user.id, user.email, token, hs, h.symm⟩

/-- A store lookup by a key no stored email equals finds nothing, and the
other way round. -/
theorem find_none_iff (users : List User) (key : Str) :
    users.find? (fun u => decide (u.email = key)) = none ↔ ∀ u ∈ users, u.email ≠ key := by
  simp [List.find?_eq_none]

/-- A stored document whose email no other stored document has is the one a
lookup by that email returns. -/
theorem find_unique (users : List User) (u : User) (hu : u ∈ users)
    (huniq : ∀ v ∈ users, v.email = u.email → v = u) :
    users.find? (fun v => decide (v.email = u.email)) = some u := by
  induction users with
  | nil => cases hu
  | cons w ws ih =>
    by_cases hw : w.email = u.email
    · have := huniq w (List.mem_cons_self _ _) hw
      subst this
      simp [List.find?]
    · have hne : w ≠ u := fun h => hw (by rw [h])
      have hmem : u ∈ ws := by
        rcases List.mem_cons.mp hu with h | h
        · exact absurd h.symm hne
        · exact h
      simp only [List.find?, hw, decide_False]
      exact ih hmem (fun v hv => huniq v (List.mem_cons_of_mem _ hv))

theorem findOne_fault (env : Env) (st : Store) (email : Option Str) (r : Option User)
    (h : findOne env st email = .ok r) : env.findOneFault = none := by
  unfold findOne at h
  cases hf : env.findOneFault with
  | none => rfl
  | some e => simp [hf] at h

/-- A stored document that is the only one with its email, the email being in
the form the setters produce, is what `findOne` returns for that email. -/
theorem findOne_stored (env : Env) (st : Store) (u : User) (hf : env.findOneFault = none)
    (hu : u ∈ st.users) (huniq : ∀ v ∈ st.users, v.email = u.email → v = u)
    (hnorm : applySetters env userSchema.email (some u.email) = some u.email) :
    findOne env st (some u.email) = .ok (some u) := by
  simp only [findOne, hf, hnorm, find_unique st.users u hu huniq]

/-- A lookup by the email of a document appended to a store that had no
document with that email returns the appended document. -/
theorem find_appended (users : List User) (u : User) (key : Str)
    (hfresh : ∀ v ∈ users, v.email ≠ key) (hu : u.email = key) :
    (users ++ [u]).find? (fun v => decide (v.email = key)) = some u := by
  induction users with
  | nil => simp [List.find?, hu]
  | cons w ws ih =>
    have hw : w.email ≠ key := hfresh w (List.mem_cons_self _ _)
    simp only [List.cons_append, List.find?, hw, decide_False]
    exact ih (fun v hv => hfresh v (List.mem_cons_of_mem _ hv))

theorem validate_email (doc : Doc) (h : validate doc = true) :
    validatePath userSchema.email doc.email = true := by
  simp only [validate, Bool.and_eq_true] at h
  exact h.1.2

/-- A lookup when the driver is up: the stored documents are searched for the
trimmed, lowercased email, provided that form passes validation. -/
theorem findOne_valid_email (env : Env) (st : Store) (e : Str)
    (hdb : env.findOneFault = none)
    (hv : validatePath userSchema.email (applySetters env userSchema.email (some e)) = true) :
    findOne env st (some e) =
      .ok (st.users.find? (fun u => decide (u.email = env.toLowerCase (trim e)))) := by
  simp only [findOne, hdb, (email_setters_of_valid env e hv).1]

/-- A signup that passes validation, with the driver up: the store gains the
document built from the body and the hash, whether or not signing succeeds
afterwards. -/
theorem signup_valid_store (env : Env) (st : Store) (body : SignupBody) (now : Nat)
    (hashed : Str)
    (hf : findOne env st body.email = .ok none)
    (hh : env.hash body.password 12 = .ok hashed)
    (hv : validate (newUser env st body.name body.email (some hashed) now) = true)
    (hs : env.saveFault = none) :
    ∃ name email,
      applySetters env userSchema.name body.name = some name ∧
      applySetters env userSchema.email body.email = some email ∧
      save env st (newUser env st body.name body.email (some hashed) now) now =
        .ok (⟨st.nextId, name, email, hashed, now, now, none⟩,
             ⟨st.users ++ [⟨st.nextId, name, email, hashed, now, now, none⟩], st.nextId + 1⟩) ∧
      (signup env st body now).store =
        ⟨st.users ++ [⟨st.nextId, name, email, hashed, now, now, none⟩], st.nextId + 1⟩ := by
  obtain ⟨name, email, password, hn, he, hp, hsave⟩ :=
    save_of_validate env st _ now hv hs
  simp only [newUser, password_setters, Option.some.injEq] at hn he hp
  subst hp
  simp only [newUser] at hsave
  refine ⟨name, email, hn, he, ?_, ?_⟩
  · simpa only [newUser] using hsave
  · have hsave2 : save env st (newUser env st body.name body.email (some hashed) now) now =
        .ok (⟨st.nextId, name, email, hashed, now, now, none⟩,
             ⟨st.users ++ [⟨st.nextId, name, email, hashed, now, now, none⟩], st.nextId + 1⟩) := by
      simpa only [newUser] using hsave
    cases hsig : sign env st.nextId email now with
    | error e => simp only [signup, signupTry, hf, hh, hsave2, hsig]
    | ok token => simp only [signup, signupTry, hf, hh, hsave2, hsig]

/-- A signup that passes validation, with the driver up and the secret set,
answers 201 with the projection of the stored document and the cookie. -/
theorem signup_valid (env : Env) (st : Store) (body : SignupBody) (now : Nat)
    (hashed : Str) (c : Char) (cs : Str)
    (hf : findOne env st body.email = .ok none)
    (hh : env.hash body.password 12 = .ok hashed)
    (hv : validate (newUser env st body.name body.email (some hashed) now) = true)
    (hs : env.saveFault = none) (hk : env.JWT_SECRET = some (c :: cs)) :
    ∃ name email token,
      applySetters env userSchema.name body.name = some name ∧
      applySetters env userSchema.email body.email = some email ∧
      sign env st.nextId email now = .ok token ∧
      signup env st body now =
        ⟨{ status := 201,
           body := .messageUser "Account created successfully!" ⟨st.nextId, name, email⟩,
           cookie := some (authCookie token) },
         ⟨st.users ++ [⟨st.nextId, name, email, hashed, now, now, none⟩], st.nextId + 1⟩,
         [.findOne body.email, .bcryptHash body.password 12,
          .save (newUser env st body.name body.email (some hashed) now),
          .jwtSign st.nextId email]⟩ := by
  obtain ⟨name, email, hn, he, hsave, _⟩ := signup_valid_store env st body now hashed hf hh hv hs
  have hsig : sign env st.nextId email now =
      .ok { payload := { userId := st.nextId, email := email, iat := now / 1000,
                         exp := now / 1000 + expiresIn },
            signature := env.hmac (c :: cs)
              { userId := st.nextId, email := email, iat := now / 1000,
                exp := now / 1000 + expiresIn } } := by
    simp only [sign, hk]
  refine ⟨name, email, _, hn, he, hsig, ?_⟩
  rw [signup_created env st _ body now hashed _ _ hf hh hsave hsig]
  rfl

/-! ## Token expiry -/

theorem sign_ok (env : Env) (userId : Nat) (email : Str) (now : Nat) (token : Jwt)
    (h : sign env userId email now = .ok token) :
    ∃ c cs, env.JWT_SECRET = some (c :: cs) ∧
      token = { payload := { userId := userId, email := email, iat := now / 1000,
                             exp := now / 1000 + expiresIn },
                signature := env.hmac (c :: cs)
                  { userId := userId, email := email, iat := now / 1000,
                    exp := now / 1000 + expiresIn } } := by
  unfold sign at h
  split at h
  · cases h
  · cases h
  · rename_i c cs hs
    refine ⟨c, cs, hs, ?_⟩
    simp only [Except.ok.injEq] at h
    exact h.symm

theorem verify_signed (env : Env) (userId : Nat) (email : Str) (now later : Nat)
    (token : Jwt) (h : sign env userId email now = .ok token) :
    verify env (.jwt token) later =
      if now / 1000 + expiresIn ≤ later / 1000 then .error "jwt expired"
      else .ok token.payload := by
  obtain ⟨c, cs, hs, rfl⟩ := sign_ok env userId email now token h
  simp only [verify, hs, if_true]

theorem authCheck_store (env : Env) (st : Store) (cookie : Option CookieValue) (now : Nat) :
    (authCheck env st cookie now).store = st := by
  cases cookie with
  | none => rfl
  | some token =>
    cases token with
    | text s =>
      cases s with
      | nil => rfl
      | cons c cs => rfl
    | jwt t =>
      simp only [authCheck]
      cases verify env (.jwt t) now <;> rfl

/-! # The claims -/

/-- The invalid-credentials answer of login: it is sent exactly when the lookup
finds no user or the comparison returns false, and it is always the same
response. -/
theorem login_401_iff (env : Env) (st : Store) (body : LoginBody) (now : Nat) :
    ((login env st body now).response.status = 401 ↔
      (findOne env st body.email = .ok none ∨
        ∃ user, findOne env st body.email = .ok (some user) ∧
          env.compare body.password user.password = .ok false)) ∧
    ((login env st body now).response.status = 401 →
      (login env st body now).response =
        { status := 401, body := .message "Invalid email or password", cookie := none }) := by
  cases hf : findOne env st body.email with
  | error e => simp [login, loginTry, hf]
  | ok found =>
    cases found with
    | none => simp [login, loginTry, hf]
    | some user =>
      cases hc : env.compare body.password user.password with
      | error e => simp [login, loginTry, hf, hc]
      | ok b =>
        cases b with
        | false => simp [login, loginTry, hf, hc]
        | true =>
          cases hs : sign env user.id user.email now with
          | error e => simp [login, loginTry, hf, hc, hs]
          | ok token => simp [login, loginTry, hf, hc, hs]

/-- C1, as stated, fails. A request with no password and a stored email makes
`bcrypt.compare` throw, and login answers 500, while the same request with an
unknown email gets 401: the two failures differ. And a stored user with a
password that verifies against the stored hash is not always logged in: in a
store where two documents share an email the lookup returns the first, so the
second user gets 401; a stored email that is not in lowercased form is never
found, 401 again; and with `JWT_SECRET` unset the answer is 500. -/
theorem login_claim_fails :
    ((login demoEnv adaStore ⟨some (str "bob@example.com"), none⟩ 5).response.status = 401 ∧
     (login demoEnv adaStore ⟨some (str "ada@example.com"), none⟩ 5).response.status = 500 ∧
     (login demoEnv adaStore ⟨some (str "bob@example.com"), none⟩ 5).response ≠
       (login demoEnv adaStore ⟨some (str "ada@example.com"), none⟩ 5).response) ∧
    (adaTwin ∈ twinStore.users ∧
     demoEnv.compare (some (str "abcdefgh")) adaTwin.password = .ok true ∧
     (login demoEnv twinStore ⟨some adaTwin.email, some (str "abcdefgh")⟩ 5).response.status
       = 401) ∧
    (legacyUser ∈ legacyStore.users ∧
     demoEnv.compare (some (str "12345678")) legacyUser.password = .ok true ∧
     (login demoEnv legacyStore ⟨some legacyUser.email, some (str "12345678")⟩ 5).response.status
       = 401) ∧
    (adaUser ∈ adaStore.users ∧
     noSecretEnv.compare (some (str "12345678")) adaUser.password = .ok true ∧
     (login noSecretEnv adaStore ⟨some adaUser.email, some (str "12345678")⟩ 5).response.status
       = 500) := by
  refine ⟨⟨by decide, by decide, by decide⟩, ⟨by decide, rfl, by decide⟩,
    ⟨by decide, rfl, by decide⟩, ⟨by decide, rfl, by decide⟩⟩

/-- C1, amended. For every environment and store: login answers a request
whose email no user has, and a request whose email a user has but for whose
password the comparison with the stored hash returns false, with the same
response, status 401, message `Invalid email or password`, no cookie, the store
untouched; login answers 401 in these two cases only, and always with that
response. Login with a password that verifies against the hash of the user the
lookup returns for the request's email answers 200 with that user's public
projection, when the signing secret is set; a stored user is the one the lookup
returns for its email when it is the only document with that email, the email
is in the form the schema setters produce, and the driver is up. -/
theorem login_failures_indistinguishable (env : Env) (st : Store) :
    (∀ (absent present : LoginBody) (now1 now2 : Nat) (user : User),
      findOne env st absent.email = .ok none →
      findOne env st present.email = .ok (some user) →
      env.compare present.password user.password = .ok false →
      (login env st absent now1).response = (login env st present now2).response ∧
      (login env st absent now1).response =
        { status := 401, body := .message "Invalid email or password", cookie := none } ∧
      (login env st absent now1).store = st ∧ (login env st present now2).store = st) ∧
    (∀ (body : LoginBody) (now : Nat),
      ((login env st body now).response.status = 401 ↔
        (findOne env st body.email = .ok none ∨
          ∃ user, findOne env st body.email = .ok (some user) ∧
            env.compare body.password user.password = .ok false)) ∧
      ((login env st body now).response.status = 401 →
        (login env st body now).response =
          { status := 401, body := .message "Invalid email or password", cookie := none })) ∧
    (∀ (body : LoginBody) (now : Nat) (user : User) (c : Char) (cs : Str),
      findOne env st body.email = .ok (some user) →
      env.JWT_SECRET = some (c :: cs) →
      env.compare body.password user.password = .ok true →
      (login env st body now).response.status = 200 ∧
      (login env st body now).response.body =
        .messageUser "Login successful" ⟨user.id, user.name, user.email⟩) ∧
    (∀ (u : User) (password : Option Str) (now : Nat) (c : Char) (cs : Str),
      u ∈ st.users →
      (∀ v ∈ st.users, v.email = u.email → v = u) →
      applySetters env userSchema.email (some u.email) = some u.email →
      env.findOneFault = none →
      env.JWT_SECRET = some (c :: cs) →
      env.compare password u.password = .ok true →
      (login env st ⟨some u.email, password⟩ now).response.status = 200 ∧
      (login env st ⟨some u.email, password⟩ now).response.body =
        .messageUser "Login successful" ⟨u.id, u.name, u.email⟩) := by
  have hok : ∀ (body : LoginBody) (now : Nat) (user : User) (c : Char) (cs : Str),
      findOne env st body.email = .ok (some user) →
      env.JWT_SECRET = some (c :: cs) →
      env.compare body.password user.password = .ok true →
      (login env st body now).response.status = 200 ∧
      (login env st body now).response.body =
        .messageUser "Login successful" ⟨user.id, user.name, user.email⟩ := by
    intro body now user c cs hfind hsecret hcmp
    have hsign : sign env user.id user.email now =
        .ok { payload := { userId := user.id, email := user.email, iat := now / 1000,
                           exp := now / 1000 + expiresIn },
              signature := env.hmac (c :: cs)
                { userId := user.id, email := user.email, iat := now / 1000,
                  exp := now / 1000 + expiresIn } } := by
      simp only [sign, hsecret]
    rw [login_ok env st body now user _ hfind hcmp hsign]
    exact ⟨rfl, rfl⟩
  refine ⟨?_, fun body now => login_401_iff env st body now, hok, ?_⟩
  · intro absent present now1 now2 user hno hyes hbad
    rw [login_no_user env st absent now1 hno,
      login_wrong_password env st present now2 user hyes hbad]
    exact ⟨rfl, rfl, rfl, rfl⟩
  · intro u password now c cs hu huniq hnorm hf hsecret hcmp
    exact hok ⟨some u.email, password⟩ now u c cs
      (findOne_stored env st u hf hu huniq hnorm) hsecret hcmp

/-- Witness of C1, amended: against the store of the scenario, an unknown email
and a wrong password get the same 401, the right password gets 200. -/
theorem login_failures_indistinguishable_witness :
    ((login demoEnv adaStore ⟨some (str "bob@example.com"), some (str "12345678")⟩ 5).response =
      (login demoEnv adaStore ⟨some (str "ada@example.com"), some (str "wrong")⟩ 7).response ∧
     (login demoEnv adaStore ⟨some (str "bob@example.com"), some (str "12345678")⟩ 5).response =
      { status := 401, body := .message "Invalid email or password", cookie := none }) ∧
    (login demoEnv adaStore ⟨some (str " ADA@example.com"), some (str "12345678")⟩
      9).response.status = 200 ∧
    (login demoEnv adaStore ⟨some (str "ada@example.com"), some (str "12345678")⟩ 9).response.status
      = 200 :=
  ⟨let h := (login_failures_indistinguishable demoEnv adaStore).1
      ⟨some (str "bob@example.com"), some (str "12345678")⟩
      ⟨some (str "ada@example.com"), some (str "wrong")⟩ 5 7 adaUser rfl rfl rfl
   ⟨h.1, h.2.1⟩,
   ((login_failures_indistinguishable demoEnv adaStore).2.2.1
      ⟨some (str " ADA@example.com"), some (str "12345678")⟩ 9 adaUser
      's' (str "ecret") rfl rfl rfl).1,
   ((login_failures_indistinguishable demoEnv adaStore).2.2.2 adaUser (some (str "12345678")) 9
      's' (str "ecret") (by decide) (by decide) rfl rfl rfl rfl).1⟩

/-- C2. Signup with the five-character password `short`, otherwise valid
fields and a fresh email is not rejected: the handler calls the hasher on
`short` before any validation, the schema's `minlength: 8` is then checked
against the hash (every bcrypt hash has 60 characters, here any hash of at least
8), the document is stored, and the answer is 201. -/
theorem signup_short_password_accepted (env : Env) (now : Nat) (hashed : Str)
    (c : Char) (cs : Str)
    (hlower : env.toLowerCase (str "ada@example.com") = str "ada@example.com")
    (hh : env.hash (some (str "short")) 12 = .ok hashed)
    (hlen : 8 ≤ hashed.length)
    (hdb : env.findOneFault = none) (hs : env.saveFault = none)
    (hk : env.JWT_SECRET = some (c :: cs)) :
    (signup env emptyStore
      ⟨some (str "Ada Lovelace"), some (str "ada@example.com"), some (str "short")⟩
      now).response.status = 201 ∧
    Effect.bcryptHash (some (str "short")) 12 ∈
      (signup env emptyStore
        ⟨some (str "Ada Lovelace"), some (str "ada@example.com"), some (str "short")⟩
        now).trace ∧
    (signup env emptyStore
      ⟨some (str "Ada Lovelace"), some (str "ada@example.com"), some (str "short")⟩
      now).store.users =
      [⟨1, str "Ada Lovelace", str "ada@example.com", hashed, now, now, none⟩] := by
  have htrim : trim (str "ada@example.com") = str "ada@example.com" := by decide
  have hne : str "ada@example.com" ≠ [] := by decide
  have hemail : applySetters env userSchema.email (some (str "ada@example.com")) =
      some (str "ada@example.com") := by
    simp [applySetters, userSchema.email, htrim, hlower, hne]
  have hname : applySetters env userSchema.name (some (str "Ada Lovelace")) =
      some (str "Ada Lovelace") := by
    have : trim (str "Ada Lovelace") = str "Ada Lovelace" := by decide
    have hn : str "Ada Lovelace" ≠ [] := by decide
    simp [applySetters, userSchema.name, this, hn]
  have hf : findOne env emptyStore (some (str "ada@example.com")) = .ok none := by
    simp [findOne, hdb, hemail, emptyStore]
  have hpat : emailPattern (str "ada@example.com") = true := by decide
  have hnl : validatePath userSchema.name (some (str "Ada Lovelace")) = true := by decide
  have hv : validate (newUser env emptyStore (some (str "Ada Lovelace"))
      (some (str "ada@example.com")) (some hashed) now) = true := by
    have hh0 : hashed ≠ [] := by
      intro h0
      rw [h0] at hlen
      simp at hlen
    simp only [validate, newUser, hname, hemail, password_setters, hnl, Bool.true_and]
    simp [validatePath, userSchema.email, userSchema.password, hpat, hlen, hh0, hne]
  obtain ⟨name, email, token, hn, he, _, hsig⟩ :=
    signup_valid env emptyStore
      ⟨some (str "Ada Lovelace"), some (str "ada@example.com"), some (str "short")⟩
      now hashed c cs hf hh hv hs hk
  simp only [hname, hemail, Option.some.injEq] at hn he
  subst hn he
  rw [hsig]
  refine ⟨rfl, ?_, rfl⟩
  simp

/-- Witness of C2: the run under the concrete environment. -/
theorem signup_short_password_accepted_witness :
    (signup demoEnv emptyStore
      ⟨some (str "Ada Lovelace"), some (str "ada@example.com"), some (str "short")⟩
      1000).response.status = 201 ∧
    Effect.bcryptHash (some (str "short")) 12 ∈
      (signup demoEnv emptyStore
        ⟨some (str "Ada Lovelace"), some (str "ada@example.com"), some (str "short")⟩
        1000).trace ∧
    (signup demoEnv emptyStore
      ⟨some (str "Ada Lovelace"), some (str "ada@example.com"), some (str "short")⟩
      1000).store.users =
      [⟨1, str "Ada Lovelace", str "ada@example.com",
        str "$2a$12$trohs" ++ List.replicate 48 '.', 1000, 1000, none⟩] :=
  signup_short_password_accepted demoEnv 1000 (str "$2a$12$trohs" ++ List.replicate 48 '.')
    's' (str "ecret") (by decide) rfl (by decide) rfl rfl rfl

/-- One order of C3: the first signup is valid, the second has an email that
passes validation and is the same after trimming and lowercasing. -/
theorem signup_then_duplicate (env : Env) (st : Store) (first second : SignupBody)
    (e1 e2 h1 : Str) (t1 t2 : Nat) (c : Char) (cs : Str)
    (he1 : first.email = some e1) (he2 : second.email = some e2)
    (hsame : env.toLowerCase (trim e1) = env.toLowerCase (trim e2))
    (hfresh : ∀ u ∈ st.users, u.email ≠ env.toLowerCase (trim e1))
    (hdb : env.findOneFault = none) (hs : env.saveFault = none)
    (hk : env.JWT_SECRET = some (c :: cs))
    (hh1 : env.hash first.password 12 = .ok h1)
    (hv1 : validate (newUser env st first.name first.email (some h1) t1) = true)
    (hv2 : validatePath userSchema.email (applySetters env userSchema.email (some e2)) = true) :
    (signup env st first t1).response.status = 201 ∧
    (signup env (signup env st first t1).store second t2).response =
      { status := 400, body := .message "An account with this email already exists",
        cookie := none } ∧
    ∃ u, u.email = env.toLowerCase (trim e1) ∧
      (signup env st first t1).store.users = st.users ++ [u] ∧
      (signup env (signup env st first t1).store second t2).store.users = st.users ++ [u] := by
  have hv1e : validatePath userSchema.email (applySetters env userSchema.email (some e1)) = true := by
    have := validate_email _ hv1
    simpa only [newUser, he1] using this
  have hset1 := (email_setters_of_valid env e1 hv1e).1
  have hf1 : findOne env st first.email = .ok none := by
    rw [he1, findOne_valid_email env st e1 hdb hv1e, (find_none_iff _ _).mpr hfresh]
  obtain ⟨name, email, token, _, he, _, hsig⟩ :=
    signup_valid env st first t1 h1 c cs hf1 hh1 hv1 hs hk
  rw [he1, hset1, Option.some.injEq] at he
  subst he
  have hf2 : findOne env (signup env st first t1).store second.email =
      .ok (some ⟨st.nextId, name, env.toLowerCase (trim e1), h1, t1, t1, none⟩) := by
    rw [hsig, he2, findOne_valid_email env _ e2 hdb hv2, ← hsame]
    simp only
    rw [find_appended st.users _ _ hfresh rfl]
  refine ⟨by rw [hsig], ?_, ⟨st.nextId, name, env.toLowerCase (trim e1), h1, t1, t1, none⟩,
    rfl, by rw [hsig], ?_⟩
  · rw [signup_duplicate env _ second t2 _ hf2]
  · rw [signup_duplicate env _ second t2 _ hf2, hsig]

/-- C3. For a store with no user of the email, and two valid signup requests
whose emails are equal after trimming and lowercasing: handled one after the
other, in either order, the first is answered 201 and the second 400 with
`An account with this email already exists`, and the store has gained exactly
one document, whose email is the trimmed, lowercased one. -/
theorem signup_twice_same_email (env : Env) (st : Store) (a b : SignupBody)
    (ea eb ha hb : Str) (ta tb : Nat) (c : Char) (cs : Str)
    (hea : a.email = some ea) (heb : b.email = some eb)
    (hsame : env.toLowerCase (trim ea) = env.toLowerCase (trim eb))
    (hfresh : ∀ u ∈ st.users, u.email ≠ env.toLowerCase (trim ea))
    (hdb : env.findOneFault = none) (hs : env.saveFault = none)
    (hk : env.JWT_SECRET = some (c :: cs))
    (hha : env.hash a.password 12 = .ok ha)
    (hva : validate (newUser env st a.name a.email (some ha) ta) = true)
    (hhb : env.hash b.password 12 = .ok hb)
    (hvb : validate (newUser env st b.name b.email (some hb) tb) = true) :
    ((signup env st a ta).response.status = 201 ∧
     (signup env (signup env st a ta).store b tb).response =
       { status := 400, body := .message "An account with this email already exists",
         cookie := none } ∧
     ∃ u, u.email = env.toLowerCase (trim ea) ∧
       (signup env (signup env st a ta).store b tb).store.users = st.users ++ [u]) ∧
    ((signup env st b tb).response.status = 201 ∧
     (signup env (signup env st b tb).store a ta).response =
       { status := 400, body := .message "An account with this email already exists",
         cookie := none } ∧
     ∃ u, u.email = env.toLowerCase (trim ea) ∧
       (signup env (signup env st b tb).store a ta).store.users = st.users ++ [u]) := by
  have hvae : validatePath userSchema.email (applySetters env userSchema.email (some ea)) = true := by
    have := validate_email _ hva
    simpa only [newUser, hea] using this
  have hvbe : validatePath userSchema.email (applySetters env userSchema.email (some eb)) = true := by
    have := validate_email _ hvb
    simpa only [newUser, heb] using this
  constructor
  · obtain ⟨h1, h2, u, hu, _, h3⟩ :=
      signup_then_duplicate env st a b ea eb ha ta tb c cs hea heb hsame hfresh hdb hs hk
        hha hva hvbe
    exact ⟨h1, h2, u, hu, h3⟩
  · obtain ⟨h1, h2, u, hu, _, h3⟩ :=
      signup_then_duplicate env st b a eb ea hb tb ta c cs heb hea hsame.symm
        (by rw [← hsame]; exact hfresh) hdb hs hk hhb hvb hvae
    exact ⟨h1, h2, u, by rw [hu, hsame], h3⟩

/-- Witness of C3: `Ada@Example.com ` and `  ADA@example.COM`, in both orders. -/
theorem signup_twice_same_email_witness :
    ((signup demoEnv emptyStore adaSignup 1000).response.status = 201 ∧
     (signup demoEnv (signup demoEnv emptyStore adaSignup 1000).store
        ⟨some (str "Ada L."), some (str "  ADA@example.COM"), some (str "abcdefgh")⟩
        2000).response =
       { status := 400, body := .message "An account with this email already exists",
         cookie := none } ∧
     ∃ u, u.email = str "ada@example.com" ∧
       (signup demoEnv (signup demoEnv emptyStore adaSignup 1000).store
          ⟨some (str "Ada L."), some (str "  ADA@example.COM"), some (str "abcdefgh")⟩
          2000).store.users = [u]) ∧
    ((signup demoEnv emptyStore
        ⟨some (str "Ada L."), some (str "  ADA@example.COM"), some (str "abcdefgh")⟩
        2000).response.status = 201 ∧
     (signup demoEnv (signup demoEnv emptyStore
        ⟨some (str "Ada L."), some (str "  ADA@example.COM"), some (str "abcdefgh")⟩
        2000).store adaSignup 1000).response =
       { status := 400, body := .message "An account with this email already exists",
         cookie := none } ∧
     ∃ u, u.email = str "ada@example.com" ∧
       (signup demoEnv (signup demoEnv emptyStore
          ⟨some (str "Ada L."), some (str "  ADA@example.COM"), some (str "abcdefgh")⟩
          2000).store adaSignup 1000).store.users = [u]) :=
  signup_twice_same_email demoEnv emptyStore adaSignup
    ⟨some (str "Ada L."), some (str "  ADA@example.COM"), some (str "abcdefgh")⟩
    (str "Ada@Example.com ") (str "  ADA@example.COM")
    (str "$2a$12$87654321" ++ List.replicate 45 '.')
    (str "$2a$12$hgfedcba" ++ List.replicate 45 '.')
    1000 2000 's' (str "ecret") rfl rfl (by decide) (by decide) rfl rfl rfl rfl (by decide)
    rfl (by decide)

/-- C4. For a signup that passes validation with a fresh email, the driver
up: the store gains exactly one document, whose password field is the output of
the hasher on the submitted plaintext with cost factor 12 (the hasher was
called with exactly these), and is not the plaintext, given that the hasher did
not return its input. -/
theorem signup_stores_hash (env : Env) (st : Store) (body : SignupBody) (now : Nat)
    (plaintext hashed : Str)
    (hp : body.password = some plaintext)
    (hf : findOne env st body.email = .ok none)
    (hh : env.hash (some plaintext) 12 = .ok hashed)
    (hv : validate (newUser env st body.name body.email (some hashed) now) = true)
    (hs : env.saveFault = none)
    (hne : hashed ≠ plaintext) :
    ∃ u, (signup env st body now).store.users = st.users ++ [u] ∧
      env.hash (some plaintext) 12 = .ok u.password ∧
      u.password ≠ plaintext ∧
      Effect.bcryptHash (some plaintext) 12 ∈ (signup env st body now).trace := by
  rcases body with ⟨bname, bemail, bpassword⟩
  simp only at hp
  subst hp
  obtain ⟨name, email, _, _, hsave, hstore⟩ :=
    signup_valid_store env st _ now hashed hf hh hv hs
  refine ⟨⟨st.nextId, name, email, hashed, now, now, none⟩, ?_, hh, hne, ?_⟩
  · rw [hstore]
  · simp only at hf hh hsave
    cases hsig : sign env st.nextId email now with
    | error e => simp [signup, signupTry, hf, hh, hsave, hsig]
    | ok token => simp [signup, signupTry, hf, hh, hsave, hsig]

/-- Witness of C4: the scenario's signup under the concrete environment. -/
theorem signup_stores_hash_witness :
    ∃ u, (signup demoEnv emptyStore adaSignup 1000).store.users = emptyStore.users ++ [u] ∧
      demoEnv.hash (some (str "12345678")) 12 = .ok u.password ∧
      u.password ≠ str "12345678" ∧
      Effect.bcryptHash (some (str "12345678")) 12 ∈
        (signup demoEnv emptyStore adaSignup 1000).trace :=
  signup_stores_hash demoEnv emptyStore adaSignup 1000 (str "12345678")
    (str "$2a$12$87654321" ++ List.replicate 45 '.') rfl rfl rfl (by decide) rfl (by decide)

/-- C5. The session check answers 200 with `authenticated: true` and the
decoded claim exactly when the `auth_token` cookie is present and `jwt.verify`
(signature and expiry) succeeds on it, the claim being what `jwt.verify`
returned. In every other case, the cookie absent or the verification failing
for whatever reason, it answers the one response 401 with body
`authenticated: false`, which is also its response to an absent cookie. -/
theorem authCheck_authenticated_iff (env : Env) (st : Store)
    (cookie : Option CookieValue) (now : Nat) :
    (∀ claim : JwtPayload,
      (authCheck env st cookie now).response =
          { status := 200, body := .authenticated true (some claim), cookie := none } ↔
        ∃ token, cookie = some token ∧ verify env token now = .ok claim) ∧
    ((¬ ∃ token claim, cookie = some token ∧ verify env token now = .ok claim) →
      (authCheck env st cookie now).response =
        { status := 401, body := .authenticated false none, cookie := none }) ∧
    (authCheck env st none now).response =
      { status := 401, body := .authenticated false none, cookie := none } := by
  refine ⟨?_, ?_, rfl⟩
  · intro claim
    cases cookie with
    | none => simp [authCheck_none]
    | some token =>
      rw [authCheck_response]
      cases h : verify env token now with
      | ok decoded => simp [h]
      | error e => simp [h]
  · intro hno
    cases cookie with
    | none => rfl
    | some token =>
      rw [authCheck_response]
      cases h : verify env token now with
      | ok decoded => exact absurd ⟨token, decoded, rfl, h⟩ hno
      | error e => rfl

/-- C6, as stated, fails on the session check: with `JWT_SECRET` unset,
`jwt.verify` throws inside the handler for a well-formed token, and the
handler answers 401 `authenticated: false`, not 500; the same fault makes
login answer 500. -/
theorem authCheck_failure_is_401 :
    verify noSecretEnv (.jwt adaToken) 2000 = .error "secret or public key must be provided" ∧
    (authCheck noSecretEnv adaStore (some (.jwt adaToken)) 2000).response =
      { status := 401, body := .authenticated false none, cookie := none } ∧
    (authCheck noSecretEnv adaStore (some (.jwt adaToken)) 2000).response.status ≠ 500 ∧
    (login noSecretEnv adaStore ⟨some (str "ada@example.com"), some (str "12345678")⟩
      2000).response.status = 500 := by
  refine ⟨rfl, rfl, by decide, by decide⟩

/-- C6, amended. Signup and login catch every failure raised inside the handler
(the lookup, the hasher or the comparison, the save, the signing) and answer 500
with a fixed message, whatever the error was. The session check has no such
handler: the only call it makes that can fail, `jwt.verify`, is wrapped in a
`catch` that answers 401 `authenticated: false` whatever the error was. Logout
makes no call that can fail and always answers 200. -/
theorem failures_caught (env : Env) (st : Store) :
    (∀ (body : SignupBody) (now : Nat),
      (∀ e, findOne env st body.email = .error e →
        (signup env st body now).response =
          { status := 500,
            body := .message "Server error during registration. Please try again later.",
            cookie := none }) ∧
      (∀ e, findOne env st body.email = .ok none → env.hash body.password 12 = .error e →
        (signup env st body now).response =
          { status := 500,
            body := .message "Server error during registration. Please try again later.",
            cookie := none }) ∧
      (∀ e hashed, findOne env st body.email = .ok none →
        env.hash body.password 12 = .ok hashed →
        save env st (newUser env st body.name body.email (some hashed) now) now = .error e →
        (signup env st body now).response =
          { status := 500,
            body := .message "Server error during registration. Please try again later.",
            cookie := none }) ∧
      (∀ e hashed user st1, findOne env st body.email = .ok none →
        env.hash body.password 12 = .ok hashed →
        save env st (newUser env st body.name body.email (some hashed) now) now =
          .ok (user, st1) →
        sign env user.id user.email now = .error e →
        (signup env st body now).response =
          { status := 500,
            body := .message "Server error during registration. Please try again later.",
            cookie := none })) ∧
    (∀ (body : LoginBody) (now : Nat),
      (∀ e, findOne env st body.email = .error e →
        (login env st body now).response =
          { status := 500, body := .message "Server error. Please try again later.",
            cookie := none }) ∧
      (∀ e user, findOne env st body.email = .ok (some user) →
        env.compare body.password user.password = .error e →
        (login env st body now).response =
          { status := 500, body := .message "Server error. Please try again later.",
            cookie := none }) ∧
      (∀ e user, findOne env st body.email = .ok (some user) →
        env.compare body.password user.password = .ok true →
        sign env user.id user.email now = .error e →
        (login env st body now).response =
          { status := 500, body := .message "Server error. Please try again later.",
            cookie := none })) ∧
    (∀ (token : CookieValue) (now : Nat) (e : String), verify env token now = .error e →
      (authCheck env st (some token) now).response =
        { status := 401, body := .authenticated false none, cookie := none }) ∧
    (∀ (cookie : Option CookieValue),
      (logout st cookie).response.status = 200 ∧ (logout st cookie).trace = []) := by
  refine ⟨fun body now => ⟨?_, ?_, ?_, ?_⟩, fun body now => ⟨?_, ?_, ?_⟩, ?_, ?_⟩
  · intro e hf
    simp only [signup, signupTry, hf]
  · intro e hf hh
    simp only [signup, signupTry, hf, hh]
  · intro e hashed hf hh hsave
    simp only [signup, signupTry, hf, hh, hsave]
  · intro e hashed user st1 hf hh hsave hs
    simp only [signup, signupTry, hf, hh, hsave, hs]
  · intro e hf
    simp only [login, loginTry, hf]
  · intro e user hf hc
    simp only [login, loginTry, hf, hc]
  · intro e user hf hc hs
    simp only [login, loginTry, hf, hc, hs]
  · intro token now e hv
    rw [authCheck_response, hv]
  · intro cookie
    exact ⟨rfl, rfl⟩

/-- Witness of C6, amended: the driver down at signup, the secret unset at login
and at the session check. -/
theorem failures_caught_witness :
    (signup dbDownEnv emptyStore adaSignup 1000).response =
      { status := 500,
        body := .message "Server error during registration. Please try again later.",
        cookie := none } ∧
    (login noSecretEnv adaStore ⟨some (str "ada@example.com"), some (str "12345678")⟩
      2000).response =
      { status := 500, body := .message "Server error. Please try again later.",
        cookie := none } ∧
    (authCheck noSecretEnv adaStore (some (.jwt adaToken)) 2000).response =
      { status := 401, body := .authenticated false none, cookie := none } :=
  ⟨((failures_caught dbDownEnv emptyStore).1 adaSignup 1000).1 "connect ECONNREFUSED" rfl,
   ((failures_caught noSecretEnv adaStore).2.1
      ⟨some (str "ada@example.com"), some (str "12345678")⟩ 2000).2.2
      "secretOrPrivateKey must have a value" adaUser rfl rfl rfl,
   (failures_caught noSecretEnv adaStore).2.2.1 (.jwt adaToken) 2000
      "secret or public key must be provided" rfl⟩

/-- C7, as stated, fails. From a store whose one document has the email
`Ada@Example.com` (unique, but not in lowercased form), a signup for
`ada@example.com` is accepted and leaves two documents whose emails are equal
after trimming and lowercasing. And the store enforces nothing: `save` of a
document with the email of a stored one succeeds, the schema's index on `email`
not being unique. -/
theorem store_accepts_duplicates :
    (EmailsUnique demoEnv legacyStore ∧
      ¬ EmailsUnique demoEnv
          (runAll demoEnv legacyStore
            [.signup ⟨some (str "Ada"), some (str "ada@example.com"), some (str "12345678")⟩
              2000])) ∧
    (EmailsUnique demoEnv adaStore ∧
      ∃ u st1, save demoEnv adaStore adaAgain 3000 = .ok (u, st1) ∧
        st1.users.map (fun v => v.email) = [str "ada@example.com", str "ada@example.com"] ∧
        ¬ EmailsUnique demoEnv st1) ∧
    userSchema.emailIndexUnique = false := by
  refine ⟨⟨?_, ?_⟩, ⟨?_, ?_⟩, rfl⟩
  · simp [EmailsUnique, legacyStore]
  · intro h
    have h2 : (runAll demoEnv legacyStore
        [.signup ⟨some (str "Ada"), some (str "ada@example.com"), some (str "12345678")⟩
          2000]).users =
        [⟨1, str "Ada Lovelace", str "Ada@Example.com",
          str "$2a$12$87654321" ++ List.replicate 45 '.', 1000, 1000, none⟩,
         ⟨2, str "Ada", str "ada@example.com",
          str "$2a$12$87654321" ++ List.replicate 45 '.', 2000, 2000, none⟩] := by
      decide
    unfold EmailsUnique at h
    rw [h2] at h
    have h3 := List.rel_of_pairwise_cons h (List.mem_singleton_self _)
    exact h3 (by decide)
  · simp [EmailsUnique, adaStore]
  · refine ⟨_, _, rfl, by decide, ?_⟩
    intro h
    unfold EmailsUnique at h
    have h3 := List.rel_of_pairwise_cons h (List.mem_singleton_self _)
    exact h3 (by decide)

/-- A signup keeps the stored emails normalised and unique, when trimming and
lowercasing the submitted email a second time changes nothing. -/
theorem signup_keeps_unique (env : Env) (st : Store) (body : SignupBody) (now : Nat)
    (hidem : ∀ e, body.email = some e →
      env.toLowerCase (trim (env.toLowerCase (trim e))) = env.toLowerCase (trim e))
    (hnorm : EmailsNormalised env st) (huniq : EmailsUnique env st) :
    EmailsNormalised env (signup env st body now).store ∧
      EmailsUnique env (signup env st body now).store := by
  rcases signup_store env st body now with h | ⟨hashed, user, hf, _, hsave⟩
  · rw [h]
    exact ⟨hnorm, huniq⟩
  · obtain ⟨hv, hemail, _, _, _, hst⟩ := save_ok_inv env st _ now user _ hsave
    have hdb := findOne_fault env st body.email none hf
    cases hbe : body.email with
    | none =>
      simp [newUser, hbe, applySetters] at hemail
    | some e =>
      have hve : validatePath userSchema.email
          (applySetters env userSchema.email (some e)) = true := by
        have := validate_email _ hv
        simpa only [newUser, hbe] using this
      have hset := (email_setters_of_valid env e hve).1
      have hue : user.email = env.toLowerCase (trim e) := by
        simp only [newUser, hbe, hset, Option.some.injEq] at hemail
        exact hemail.symm
      have hnone : ∀ v ∈ st.users, v.email ≠ env.toLowerCase (trim e) := by
        rw [hbe, findOne_valid_email env st e hdb hve] at hf
        simp only [Except.ok.injEq] at hf
        exact (find_none_iff _ _).mp hf
      have hun : env.toLowerCase (trim user.email) = user.email := by
        rw [hue]
        exact hidem e hbe
      rw [hst]
      constructor
      · intro v hv2
        simp only [List.mem_append, List.mem_singleton] at hv2
        rcases hv2 with hv2 | hv2
        · exact hnorm v hv2
        · rw [hv2]
          exact hun
      · unfold EmailsUnique
        simp only
        rw [List.pairwise_append]
        refine ⟨huniq, List.pairwise_singleton _ _, ?_⟩
        intro v hv2 w hw
        rw [List.mem_singleton] at hw
        subst hw
        rw [hnorm v hv2, hun, hue]
        exact hnone v hv2

/-- C7, amended. From a store whose emails are in trimmed, lowercased form and
pairwise different, every sequence of signup, login, logout and session-check
requests handled one after another leaves a store whose emails are in trimmed,
lowercased form and pairwise different (compared after trimming and
lowercasing), given that trimming and lowercasing a submitted email twice is
the same as once. It is the lookup of the signup handler that keeps them
different: the schema's index on `email` is not unique. -/
theorem emails_stay_unique (env : Env) (reqs : List Request) (st : Store)
    (hidem : ∀ body now e, Request.signup body now ∈ reqs → body.email = some e →
      env.toLowerCase (trim (env.toLowerCase (trim e))) = env.toLowerCase (trim e))
    (hnorm : EmailsNormalised env st) (huniq : EmailsUnique env st) :
    EmailsNormalised env (runAll env st reqs) ∧ EmailsUnique env (runAll env st reqs) ∧
      userSchema.emailIndexUnique = false := by
  induction reqs generalizing st with
  | nil => exact ⟨hnorm, huniq, rfl⟩
  | cons r rs ih =>
    have hstep : EmailsNormalised env (handle env st r).store ∧
        EmailsUnique env (handle env st r).store := by
      cases r with
      | signup body now =>
        exact signup_keeps_unique env st body now
          (fun e he => hidem body now e (List.mem_cons_self _ _) he) hnorm huniq
      | login body now =>
        simp only [handle, login_store]
        exact ⟨hnorm, huniq⟩
      | logout cookie => exact ⟨hnorm, huniq⟩
      | authCheck cookie now =>
        simp only [handle, authCheck_store]
        exact ⟨hnorm, huniq⟩
    exact ih (handle env st r).store
      (fun body now e hm he => hidem body now e (List.mem_cons_of_mem _ hm) he)
      hstep.1 hstep.2

/-- Witness of C7, amended: five requests from the empty store. -/
theorem emails_stay_unique_witness :
    EmailsNormalised demoEnv
      (runAll demoEnv emptyStore
        [.signup adaSignup 1000,
         .signup ⟨some (str "Ada L."), some (str "  ADA@example.COM"), some (str "abcdefgh")⟩
           2000,
         .login ⟨some (str "ada@example.com"), some (str "12345678")⟩ 3000,
         .logout none,
         .authCheck none 4000]) ∧
    EmailsUnique demoEnv
      (runAll demoEnv emptyStore
        [.signup adaSignup 1000,
         .signup ⟨some (str "Ada L."), some (str "  ADA@example.COM"), some (str "abcdefgh")⟩
           2000,
         .login ⟨some (str "ada@example.com"), some (str "12345678")⟩ 3000,
         .logout none,
         .authCheck none 4000]) ∧
    userSchema.emailIndexUnique = false :=
  emails_stay_unique demoEnv _ emptyStore
    (by
      intro body now e hm he
      simp only [List.mem_cons, Request.signup.injEq, List.mem_singleton, reduceCtorEq,
        List.not_mem_nil, or_false] at hm
      rcases hm with ⟨rfl, _⟩ | ⟨rfl, _⟩
      · simp only [adaSignup, Option.some.injEq] at he
        subst he
        decide
      · simp only [Option.some.injEq] at he
        subst he
        decide)
    (by intro u hu; simp [emptyStore] at hu)
    (by simp [EmailsUnique, emptyStore])

/-- C8. For a signup that passes validation with a fresh email: the stored
document's email is the submitted one trimmed and lowercased and its password
is the hash; signup answers 201 with the document's projection; a login with
the normalised email and the same password, which verifies against its hash,
answers 200 with the projection `id, name, email` of that document (the
projection has no password field); a login with a password that does not verify
answers 401 `Invalid email or password`. -/
theorem signup_then_login (env : Env) (st : Store) (body : SignupBody)
    (e plaintext hashed : Str) (t1 t2 : Nat) (c : Char) (cs : Str)
    (he : body.email = some e) (hp : body.password = some plaintext)
    (hfresh : findOne env st body.email = .ok none)
    (hh0 : env.hash (some plaintext) 12 = .ok hashed)
    (hv : validate (newUser env st body.name body.email (some hashed) t1) = true)
    (hs : env.saveFault = none) (hk : env.JWT_SECRET = some (c :: cs))
    (hcmp : env.compare (some plaintext) hashed = .ok true)
    (hidem : applySetters env userSchema.email (some (env.toLowerCase (trim e))) =
      some (env.toLowerCase (trim e))) :
    ∃ u, (signup env st body t1).store.users = st.users ++ [u] ∧
      u.email = env.toLowerCase (trim e) ∧
      u.password = hashed ∧
      (signup env st body t1).response.status = 201 ∧
      (signup env st body t1).response.body =
        .messageUser "Account created successfully!" ⟨u.id, u.name, u.email⟩ ∧
      (login env (signup env st body t1).store
        ⟨some (env.toLowerCase (trim e)), some plaintext⟩ t2).response.status = 200 ∧
      (login env (signup env st body t1).store
        ⟨some (env.toLowerCase (trim e)), some plaintext⟩ t2).response.body =
        .messageUser "Login successful" ⟨u.id, u.name, u.email⟩ ∧
      (∀ other : Option Str, env.compare other hashed = .ok false →
        (login env (signup env st body t1).store
          ⟨some (env.toLowerCase (trim e)), other⟩ t2).response =
          { status := 401, body := .message "Invalid email or password", cookie := none }) := by
  have hh : env.hash body.password 12 = .ok hashed := by rw [hp]; exact hh0
  have hdb := findOne_fault env st body.email none hfresh
  have hve : validatePath userSchema.email (applySetters env userSchema.email (some e)) = true := by
    have := validate_email _ hv
    simpa only [newUser, he] using this
  have hset := (email_setters_of_valid env e hve).1
  have hnone : ∀ v ∈ st.users, v.email ≠ env.toLowerCase (trim e) := by
    rw [he, findOne_valid_email env st e hdb hve] at hfresh
    simp only [Except.ok.injEq] at hfresh
    exact (find_none_iff _ _).mp hfresh
  obtain ⟨name, email, token, _, hem, _, hsig⟩ :=
    signup_valid env st body t1 hashed c cs hfresh hh hv hs hk
  rw [he, hset, Option.some.injEq] at hem
  subst hem
  have hfind : findOne env (signup env st body t1).store (some (env.toLowerCase (trim e))) =
      .ok (some ⟨st.nextId, name, env.toLowerCase (trim e), hashed, t1, t1, none⟩) := by
    rw [hsig]
    simp only [findOne, hdb, hidem]
    rw [find_appended st.users _ _ hnone rfl]
  have hsign : sign env st.nextId (env.toLowerCase (trim e)) t2 =
      .ok { payload := { userId := st.nextId, email := env.toLowerCase (trim e),
                         iat := t2 / 1000, exp := t2 / 1000 + expiresIn },
            signature := env.hmac (c :: cs)
              { userId := st.nextId, email := env.toLowerCase (trim e), iat := t2 / 1000,
                exp := t2 / 1000 + expiresIn } } := by
    simp only [sign, hk]
  refine ⟨⟨st.nextId, name, env.toLowerCase (trim e), hashed, t1, t1, none⟩,
    by rw [hsig], rfl, rfl, by rw [hsig], by rw [hsig], ?_, ?_, ?_⟩
  · rw [login_ok env _ ⟨some (env.toLowerCase (trim e)), some plaintext⟩ t2 _ _ hfind hcmp hsign]
  · rw [login_ok env _ ⟨some (env.toLowerCase (trim e)), some plaintext⟩ t2 _ _ hfind hcmp hsign]
    rfl
  · intro other hbad
    rw [login_wrong_password env _ ⟨some (env.toLowerCase (trim e)), other⟩ t2 _ hfind hbad]

/-- Witness of C8: the scenario of the specification. -/
theorem signup_then_login_witness :
    ∃ u, (signup demoEnv emptyStore adaSignup 1000).store.users = [u] ∧
      u.email = str "ada@example.com" ∧
      u.password = str "$2a$12$87654321" ++ List.replicate 45 '.' ∧
      (signup demoEnv emptyStore adaSignup 1000).response.status = 201 ∧
      (login demoEnv (signup demoEnv emptyStore adaSignup 1000).store
        ⟨some (str "ada@example.com"), some (str "12345678")⟩ 5000).response.status = 200 ∧
      (login demoEnv (signup demoEnv emptyStore adaSignup 1000).store
        ⟨some (str "ada@example.com"), some (str "12345678")⟩ 5000).response.body =
        .messageUser "Login successful" ⟨u.id, u.name, u.email⟩ ∧
      (login demoEnv (signup demoEnv emptyStore adaSignup 1000).store
        ⟨some (str "ada@example.com"), some (str "wrong")⟩ 5000).response =
        { status := 401, body := .message "Invalid email or password", cookie := none } := by
  obtain ⟨u, h1, h2, h3, h4, _, h6, h7, h8⟩ :=
    signup_then_login demoEnv emptyStore adaSignup (str "Ada@Example.com ") (str "12345678")
      (str "$2a$12$87654321" ++ List.replicate 45 '.') 1000 5000 's' (str "ecret")
      rfl rfl rfl rfl (by decide) rfl rfl rfl (by decide)
  exact ⟨u, h1, h2, h3, h4, h6, h7, h8 (some (str "wrong")) rfl⟩

/-- C9. Whatever the client's cookie was (none, a valid token, an invalid
one), logout answers 200 and sets `auth_token` to the empty value with max-age
0; it makes no library call (it verifies nothing), leaves the store alone, and
its outcome does not depend on the cookie. A session check made right after,
with the cookie discarded or with the empty value logout wrote, answers 401
with `authenticated: false`. -/
theorem logout_then_authCheck (env : Env) (st : Store) (prior : Option CookieValue)
    (now : Nat) :
    (logout st prior).response =
      { status := 200, body := .message "Logged out successfully",
        cookie := some { name := "auth_token", value := .text [], httpOnly := true,
                         maxAge := 0 } } ∧
    (logout st prior).trace = [] ∧
    (logout st prior).store = st ∧
    (∀ other : Option CookieValue, logout st other = logout st prior) ∧
    (authCheck env (logout st prior).store none now).response =
      { status := 401, body := .authenticated false none, cookie := none } ∧
    (∀ c, (logout st prior).response.cookie = some c →
      (authCheck env (logout st prior).store (some c.value) now).response =
        { status := 401, body := .authenticated false none, cookie := none }) := by
  refine ⟨rfl, rfl, rfl, fun _ => rfl, rfl, ?_⟩
  intro c hc
  simp only [logout, Option.some.injEq] at hc
  subst hc
  rfl

/-- What holds of a cookie that carries a token signed at time `T`. -/
theorem authCookie_lifetime (env : Env) (st : Store) (T : Nat) (userId : Nat) (email : Str)
    (token : Jwt) (h : sign env userId email T = .ok token) :
    (authCookie token).maxAge = 24 * 60 * 60 * 1000 ∧
    ∃ t, (authCookie token).value = .jwt t ∧
      t.payload.iat = T / 1000 ∧
      t.payload.exp = T / 1000 + 24 * 60 * 60 ∧
      t.payload.exp = (T + 24 * 60 * 60 * 1000) / 1000 ∧
      (authCheck env st (some (authCookie token).value) (T + (23 * 60 + 59) * 60 * 1000)).response =
        { status := 200, body := .authenticated true (some t.payload), cookie := none } ∧
      (authCheck env st (some (authCookie token).value) (T + (24 * 60 + 1) * 60 * 1000)).response =
        { status := 401, body := .authenticated false none, cookie := none } := by
  refine ⟨rfl, token, rfl, ?_, ?_, ?_, ?_, ?_⟩
  · obtain ⟨c, cs, _, rfl⟩ := sign_ok env userId email T token h
    rfl
  · obtain ⟨c, cs, _, rfl⟩ := sign_ok env userId email T token h
    rfl
  · obtain ⟨c, cs, _, rfl⟩ := sign_ok env userId email T token h
    simp only [expiresIn]
    omega
  · simp only [authCookie]
    rw [authCheck_response, verify_signed env userId email T _ token h]
    have : ¬ (T / 1000 + expiresIn ≤ (T + (23 * 60 + 59) * 60 * 1000) / 1000) := by
      simp only [expiresIn]
      omega
    simp only [this, if_false]
  · simp only [authCookie]
    rw [authCheck_response, verify_signed env userId email T _ token h]
    have : T / 1000 + expiresIn ≤ (T + (24 * 60 + 1) * 60 * 1000) / 1000 := by
      simp only [expiresIn]
      omega
    simp only [this, if_true]

/-- C10. A cookie set by signup or by login at time `T` (milliseconds) has
max-age `24 * 60 * 60 * 1000` and carries a token with `iat` the second of `T`
and `exp` exactly `24 * 60 * 60` seconds later, which is the second of `T` plus
24 hours; the session check, under the same environment (the same secret),
accepts the unmodified token at `T` plus 23 h 59 min with the token's payload as
the claim, and rejects it at `T` plus 24 h 1 min with 401. -/
theorem token_expires_after_24h (env : Env) (st st2 : Store) (T : Nat) :
    (∀ (body : SignupBody) (ck : Cookie),
      (signup env st body T).response.cookie = some ck →
      ck.maxAge = 24 * 60 * 60 * 1000 ∧
      ∃ t, ck.value = .jwt t ∧
        t.payload.iat = T / 1000 ∧
        t.payload.exp = T / 1000 + 24 * 60 * 60 ∧
        t.payload.exp = (T + 24 * 60 * 60 * 1000) / 1000 ∧
        (authCheck env st2 (some ck.value) (T + (23 * 60 + 59) * 60 * 1000)).response =
          { status := 200, body := .authenticated true (some t.payload), cookie := none } ∧
        (authCheck env st2 (some ck.value) (T + (24 * 60 + 1) * 60 * 1000)).response =
          { status := 401, body := .authenticated false none, cookie := none }) ∧
    (∀ (body : LoginBody) (ck : Cookie),
      (login env st body T).response.cookie = some ck →
      ck.maxAge = 24 * 60 * 60 * 1000 ∧
      ∃ t, ck.value = .jwt t ∧
        t.payload.iat = T / 1000 ∧
        t.payload.exp = T / 1000 + 24 * 60 * 60 ∧
        t.payload.exp = (T + 24 * 60 * 60 * 1000) / 1000 ∧
        (authCheck env st2 (some ck.value) (T + (23 * 60 + 59) * 60 * 1000)).response =
          { status := 200, body := .authenticated true (some t.payload), cookie := none } ∧
        (authCheck env st2 (some ck.value) (T + (24 * 60 + 1) * 60 * 1000)).response =
          { status := 401, body := .authenticated false none, cookie := none }) := by
  constructor
  · intro body ck hck
    obtain ⟨userId, email, token, hs, rfl⟩ := signup_cookie env st body T ck hck
    exact authCookie_lifetime env st2 T userId email token hs
  · intro body ck hck
    obtain ⟨userId, email, token, hs, rfl⟩ := login_cookie env st body T ck hck
    exact authCookie_lifetime env st2 T userId email token hs

/-- Witness of C10: the token signed for the scenario at time 1000 is accepted
23 h 59 min later and rejected 24 h 1 min later. -/
theorem token_expires_after_24h_witness :
    (authCheck demoEnv adaStore (some (.jwt adaToken)) (1000 + (23 * 60 + 59) * 60 * 1000)).response.status
      = 200 ∧
    (authCheck demoEnv adaStore (some (.jwt adaToken)) (1000 + (24 * 60 + 1) * 60 * 1000)).response.status
      = 401 := by
  obtain ⟨_, t, ht, _, _, _, h1, h2⟩ :=
    (token_expires_after_24h demoEnv emptyStore adaStore 1000).1 adaSignup (authCookie adaToken) rfl
  have : t = adaToken := by
    simp only [authCookie, CookieValue.jwt.injEq] at ht
    exact ht.symm
  subst this
  simp only [authCookie] at h1 h2
  rw [h1, h2]
  exact ⟨rfl, rfl⟩

end AuthBackend
